import Mathlib

/-
Verification development for the Sonograph-X report application.
The definitions below are a shallow embedding of the JavaScript source:
  - src/src/App.jsx        (Gemini variant: callGemini retry loop, RRN effect,
                            handleSave, handleTemplate)
  - src/unnamed/part_000   (Functions variant: callAiFunction, RRN effect,
                            handleSave, handleTemplate, addAbnormalSnippet,
                            handleAiPolish / handleAiImpression / handleAiExplain)
  - src/functions/index.js (backend callable generateReportText / buildPrompt)
JavaScript numbers that can become NaN via parseInt are modelled as
Option Int with none standing for NaN; NaN propagation and NaN comparison
semantics are made explicit in the jsXxx helpers.
-/

namespace SonographX

/-- A JavaScript number that is either a genuine integer or NaN (none). -/
abbrev JsNum := Option Int

/-- JS addition: NaN-poisoning. -/
def jsAdd (a b : JsNum) : JsNum :=
  match a, b with
  | some x, some y => some (x + y)
  | _, _ => none

/-- JS subtraction: NaN-poisoning. -/
def jsSub (a b : JsNum) : JsNum :=
  match a, b with
  | some x, some y => some (x - y)
  | _, _ => none

/-- JS comparison a < b: any comparison with NaN is false. -/
def jsLt (a b : JsNum) : Bool :=
  match a, b with
  | some x, some y => decide (x < y)
  | _, _ => false

/-- JS strict equality a === b between two numbers: NaN === anything is false. -/
def jsEq (a b : JsNum) : Bool :=
  match a, b with
  | some x, some y => decide (x = y)
  | _, _ => false

/-- JS test for digit % 2 !== 0. NaN % 2 is NaN and NaN !== 0 is true,
so the test holds on NaN. -/
def jsOddTest (a : JsNum) : Bool :=
  match a with
  | some x => decide (x % 2 ≠ 0)
  | none => true

/-- Maximal leading run of decimal digits, as a number; none when the run
is empty. -/
def parseDigits (cs : List Char) : Option Nat :=
  let ds := cs.takeWhile Char.isDigit
  if ds.isEmpty then none
  else some (ds.foldl (fun acc c => acc * 10 + (c.toNat - 48)) 0)

/-- Model of the JS parseInt applied with no radix argument: skip leading
whitespace, an optional sign, then read the maximal decimal-digit run;
NaN (none) when no digit is found. Hexadecimal 0x prefixes are not
modelled; no input considered in this development contains them. -/
def parseIntJs (s : String) : JsNum :=
  let cs := s.toList.dropWhile (fun c => c = ' ' ∨ c = '\t' ∨ c = '\n' ∨ c = '\r')
  match cs with
  | '-' :: rest => (parseDigits rest).map (fun n => -(n : Int))
  | '+' :: rest => (parseDigits rest).map (fun n => (n : Int))
  | _ => (parseDigits cs).map (fun n => (n : Int))

/-- Model of rrn.replace on the hyphen-global regex with the empty string:
removes every hyphen character, nothing else. -/
def stripHyphens (s : String) : String :=
  (s.toList.filter (fun c => c ≠ '-')).asString

/-- Model of s.charAt i: the one-character string at index i, empty when out
of range. -/
def charAtJs (s : String) (i : Nat) : String :=
  ((s.toList.drop i).take 1).asString

/-- Model of s.substring a b for a ≤ b: the characters from index a
(inclusive) to b (exclusive). -/
def substringJs (s : String) (a b : Nat) : String :=
  ((s.toList.drop a).take (b - a)).asString

/-- The current date as read from new Date(): year, zero-based month, and
day of month. -/
structure Today where
  year : Int
  month : Int
  day : Int
deriving DecidableEq, Repr

/-- The age field of the ageSex state: the empty string (set when the
identifier is too short), NaN, or a number. -/
inductive AgeField
  | empty
  | nan
  | num (n : Int)
deriving DecidableEq, Repr

/-- The ageSex state written by the RRN effect. -/
structure AgeSexR where
  age : AgeField
  sex : String
deriving DecidableEq, Repr

/-- Intermediate values of the RRN effect body (the branch taken when at
least 7 characters remain after hyphen removal). -/
structure RrnDerivation where
  digit : JsNum
  yearBase : Int
  year : JsNum
  month : JsNum
  day : JsNum
  age : JsNum
  sex : String
deriving DecidableEq, Repr

/-- Body of the RRN effect after the length guard, mirroring App.jsx
lines 139 to 150 (identical in part_000 lines 197 to 208): 7th character
as the century/sex code, {1,2,5,6} selecting 1900, birth year / month
(zero-based) / day from fixed positions, age decremented when today is
earlier in the calendar year than the birth month/day, sex from the
parity test on the code digit. -/
def rrnDerive (rrn : String) (t : Today) : RrnDerivation :=
  let digit := parseIntJs (charAtJs rrn 6)
  let yearBase : Int :=
    if jsEq digit (some 1) || jsEq digit (some 2) ||
       jsEq digit (some 5) || jsEq digit (some 6) then 1900 else 2000
  let year := jsAdd (some yearBase) (parseIntJs (substringJs rrn 0 2))
  let month := jsSub (parseIntJs (substringJs rrn 2 4)) (some 1)
  let day := parseIntJs (substringJs rrn 4 6)
  let baseAge := jsSub (some t.year) year
  let age :=
    if jsLt (some t.month) month ||
       (jsEq (some t.month) month && jsLt (some t.day) day)
    then jsSub baseAge (some 1) else baseAge
  let sex := if jsOddTest digit then "Male" else "Female"
  ⟨digit, yearBase, year, month, day, age, sex⟩

/-- Turn the JS number stored into ageSex.age into its AgeField rendering. -/
def toAgeField : JsNum → AgeField
  | none => AgeField.nan
  | some n => AgeField.num n

/-- The RRN calculation effect (DemographicResolver): strip hyphens; if
fewer than 7 characters remain, set age to the empty string and sex to
the empty string; otherwise run the derivation. -/
def computeAgeSex (raw : String) (t : Today) : AgeSexR :=
  let rrn := stripHyphens raw
  if rrn.length < 7 then ⟨AgeField.empty, ""⟩
  else ⟨toAgeField (rrnDerive rrn t).age, (rrnDerive rrn t).sex⟩

/-- The form state: the current in-memory report fields (part_000 lines
128 to 131). -/
structure Form where
  name : String
  id : String
  rrn : String
  date : String
  type : String
  indication : String
  findings : String
  impression : String
deriving DecidableEq, Repr

/-- A template entry: normal findings text and default impression text. -/
structure TemplateEntry where
  normal : String
  impression : String
deriving DecidableEq, Repr

/-- The static TEMPLATES map of part_000 lines 25 to 62, as a lookup from
exam type to entry; none for an unknown exam type. -/
def TEMPLATES (ty : String) : Option TemplateEntry :=
  if ty = "Abdomen US" then some
    ⟨"Liver is appropriate in size with homogeneous echotexture and no focal lesion.\nGallbladder is well-distended without wall thickening, stones, or sludge; common duct is not dilated.\nPancreas and spleen are unremarkable.\nBoth kidneys are normal in size and echogenicity without hydronephrosis or calculus.",
     "Normal abdominal ultrasound."⟩
  else if ty = "Kidney-Bladder US" then some
    ⟨"Both kidneys demonstrate preserved corticomedullary differentiation with no calculus or hydronephrosis.\nUreters are not dilated.\nUrinary bladder is smoothly contoured without wall thickening or intraluminal debris; post-void residual is minimal if assessed.",
     "Normal renal and bladder ultrasound."⟩
  else if ty = "Neonatal Spine US" then some
    ⟨"Conus medullaris terminates at L1–L2 with a thin, mobile filum.\nNo dorsal dermal sinus, lipoma, or intraspinal mass is identified.\nPosterior elements are intact without evidence of dysraphism.\nNo abnormal fluid collection in the paraspinal soft tissues.",
     "Normal neonatal spinal canal and cord."⟩
  else if ty = "Pediatric Neck US" then some
    ⟨"Thyroid lobes are normal in size with homogeneous echotexture.\nVisualized cervical lymph nodes are small with preserved fatty hila and normal vascular pattern.\nNo cystic or vascular neck mass is detected.\nSalivary glands appear unremarkable.",
     "Normal pediatric neck ultrasound."⟩
  else if ty = "Neonatal Head US" then some
    ⟨"Lateral ventricles are normal in caliber; third and fourth ventricles are not dilated.\nGerminal matrix at the caudothalamic groove is intact without echogenic focus.\nPeriventricular white matter shows homogeneous echogenicity without cystic change.\nNo evidence of intracranial hemorrhage or ventriculomegaly.",
     "Normal cranial ultrasound for age."⟩
  else if ty = "Scrotum US" then some
    ⟨"Both testes are normal in size with homogeneous echogenicity and symmetric intratesticular flow.\nEpididymides are unremarkable.\nNo hydrocele, varicocele, or scrotal wall thickening is present.\nSpermatic cords are intact without twisting.",
     "Normal scrotal ultrasound."⟩
  else if ty = "Prepubertal Uterus-Ovary US" then some
    ⟨"Uterus is tubular and age-appropriate with thin endometrial stripe.\nBoth ovaries are normal in volume with small peripheral follicles; vascularity is symmetric.\nNo adnexal mass or ovarian torsion is identified.\nNo free pelvic fluid.",
     "Normal prepubertal pelvic ultrasound."⟩
  else if ty = "Appendix US" then some
    ⟨"The appendix is fully visualized, compressible, and measures <6 mm in diameter.\nWall is not thickened; no periappendiceal fat stranding, fluid collection, or appendicolith is seen.\nNo regional lymphadenopathy or free fluid.",
     "Normal appendix without sonographic evidence of appendicitis."⟩
  else if ty = "Bowel US" then some
    ⟨"Visualized bowel loops show normal wall thickness and preserved peristalsis.\nNo target/donut sign or intussusception is identified.\nMesentery is unremarkable without edema or lymphadenopathy.\nNo ascites or focal fluid collection.",
     "Normal bowel ultrasound."⟩
  else none

/-- Model of the JS expression opt?.field || fallback: the fallback is used
both when the lookup missed and when the stored text is empty (falsy). -/
def jsOrDefault (a : Option String) (d : String) : String :=
  match a with
  | some s => if s = "" then d else s
  | none => d

/-- handleTemplate (part_000 lines 214 to 222, App.jsx lines 156 to 164):
store the selected exam type and unconditionally overwrite findings and
impression with the template texts, or with empty strings when the type
has no template. -/
def handleTemplate (ty : String) (f : Form) : Form :=
  { f with
    type := ty,
    findings := jsOrDefault ((TEMPLATES ty).map TemplateEntry.normal) "",
    impression := jsOrDefault ((TEMPLATES ty).map TemplateEntry.impression) "" }

/-- addAbnormalSnippet (part_000 lines 224 to 229): when findings are
non-empty (truthy) append a blank line and the snippet text, otherwise set
findings to the snippet text. -/
def addAbnormalSnippet (text : String) (f : Form) : Form :=
  { f with
    findings := if f.findings ≠ "" then f.findings ++ "\n\n" ++ text else text }

/-- Session state relevant to saving: the form and the currently selected
document id (null before the first successful create). -/
structure SessionState where
  form : Form
  currentId : Option String
deriving DecidableEq, Repr

/-- The data pushed to the store on save: the form fields plus the
updatedAt timestamp taken at save time. -/
structure ReportData where
  form : Form
  updatedAt : String
deriving DecidableEq, Repr

/-- A PersistenceGateway call issued by save: an addDoc (create) with the
data, or a setDoc merge (update) on a document id. -/
inductive GatewayCall
  | create (data : ReportData)
  | update (docId : String) (data : ReportData)
deriving DecidableEq, Repr

/-- Whether a gateway call is a create. -/
def GatewayCall.isCreate : GatewayCall → Bool
  | .create _ => true
  | .update _ _ => false

/-- Outcome of one handleSave run. -/
inductive SaveOutcome
  | notReady
  | validationError
  | saved
  | saveFailed
deriving DecidableEq, Repr

/-- Environment of one handleSave run: whether user and db handle are
present, the timestamp new Date().toISOString() would yield, the id the
store would assign to a created document, and whether the round trip
succeeds (false models addDoc or setDoc rejecting, caught by the
try/catch). -/
structure SaveEnv where
  ready : Bool
  now : String
  newId : String
  ioOk : Bool
deriving DecidableEq, Repr

/-- handleSave (part_000 lines 231 to 247, App.jsx lines 166 to 182):
silently return when user or db is missing; alert and return when the name
is empty (before any gateway call); otherwise push the form with a fresh
updatedAt - a setDoc merge on the current id when one exists, else an
addDoc whose returned id is adopted as currentId. A rejected round trip is
caught: no state changes, in particular a failed create adopts no id.
Returns the new state, the list of gateway calls issued (paired with
their success), and the outcome. -/
def handleSave (env : SaveEnv) (s : SessionState) :
    SessionState × List (GatewayCall × Bool) × SaveOutcome :=
  if env.ready = false then (s, [], SaveOutcome.notReady)
  else if s.form.name = "" then (s, [], SaveOutcome.validationError)
  else
    let data : ReportData := ⟨s.form, env.now⟩
    match s.currentId with
    | some cid =>
      (s, [(GatewayCall.update cid data, env.ioOk)],
        if env.ioOk then SaveOutcome.saved else SaveOutcome.saveFailed)
    | none =>
      if env.ioOk then
        ({ s with currentId := some env.newId },
          [(GatewayCall.create data, true)], SaveOutcome.saved)
      else
        (s, [(GatewayCall.create data, false)], SaveOutcome.saveFailed)

/-- Run a sequence of handleSave steps, accumulating every gateway call
issued along the way. -/
def runSaves (s : SessionState) : List SaveEnv → SessionState × List (GatewayCall × Bool)
  | [] => (s, [])
  | env :: rest =>
    let step := handleSave env s
    let tail := runSaves step.1 rest
    (tail.1, step.2.1 ++ tail.2)

/-- One response of the external Gemini endpoint to one fetch call:
HTTP ok with the generated text, HTTP 429 (rate limited), or any other
failure (a non-ok non-429 status, a network error, or a malformed body),
whose message the code throws and catches. -/
inductive ApiResponse
  | ok (text : String)
  | rateLimited
  | failed (msg : String)
deriving DecidableEq, Repr

/-- Observable outcome of one callGemini run: the returned value, the
number of fetch calls made, the inter-attempt delays awaited in order
(milliseconds), and the alert message shown, if any. -/
structure GeminiOutcome where
  result : Option String
  calls : Nat
  delays : List Nat
  alert : Option String
deriving DecidableEq, Repr

/-- Model of the JS String.prototype.trim: remove leading and trailing
whitespace characters. -/
def trimJs (s : String) : String :=
  ((s.toList.dropWhile Char.isWhitespace).reverse.dropWhile Char.isWhitespace).reverse.asString

/-- MAX_RETRIES of callGemini (App.jsx line 222). -/
def MAX_RETRIES : Nat := 3

/-- The callGemini retry loop (App.jsx lines 225 to 240) from attempt
index i with the given fuel; along every call from callGemini the
invariant i + fuel = MAX_RETRIES holds, so fuel = 0 inside the step case
is exactly the JS test i === MAX_RETRIES - 1. An ok response returns the
trimmed text at once; a 429 awaits 1000 * 2 ^ i ms and loops; any other
failure is thrown, caught inside the loop body (alerting with its message
only on the last attempt), and the loop proceeds to the next attempt with
no delay. Falling off the loop returns null. -/
def callGeminiAux (responses : Nat → ApiResponse) (i : Nat) : Nat → GeminiOutcome
  | 0 => ⟨none, 0, [], none⟩
  | fuel + 1 =>
    match responses i with
    | ApiResponse.ok text => ⟨some (trimJs text), 1, [], none⟩
    | ApiResponse.rateLimited =>
      let rest := callGeminiAux responses (i + 1) fuel
      ⟨rest.result, rest.calls + 1, 1000 * 2 ^ i :: rest.delays, rest.alert⟩
    | ApiResponse.failed msg =>
      let rest := callGeminiAux responses (i + 1) fuel
      ⟨rest.result, rest.calls + 1, rest.delays,
        if fuel = 0 then some msg else rest.alert⟩

/-- callGemini as a function of the response each successive fetch call
would receive. -/
def callGemini (responses : Nat → ApiResponse) : GeminiOutcome :=
  callGeminiAux responses 0 MAX_RETRIES

/-- Response sequence whose first call fails with a non-transient error
and whose second call succeeds. -/
def failThenOk : Nat → ApiResponse
  | 0 => ApiResponse.failed "Internal error"
  | _ => ApiResponse.ok "Polished findings."

/-- Response sequence whose first call is rate limited and whose second
call succeeds. -/
def transientThenOk : Nat → ApiResponse
  | 0 => ApiResponse.rateLimited
  | _ => ApiResponse.ok "Polished findings."

/-- Response sequence on which every call fails non-transiently, with
distinguishable messages. -/
def allFailed : Nat → ApiResponse :=
  fun i => ApiResponse.failed (if i = 0 then "e0" else if i = 1 then "e1" else "e2")

/-- A request of the callable text-generation backend. -/
structure AiRequest where
  mode : String
  findings : String
  impression : String
deriving DecidableEq, Repr

/-- Outcome of the synchronous validation an AI action performs before
issuing its request. -/
inductive AiOutcome
  | validationError (msg : String)
  | requested (req : AiRequest)
deriving DecidableEq, Repr

/-- handleAiPolish validation and request construction (part_000 lines 303
to 309): alert and stop when findings are empty, otherwise issue one
request in polish mode carrying the findings. Returns the outcome and the
list of requests issued. -/
def handleAiPolishPre (f : Form) : AiOutcome × List AiRequest :=
  if f.findings = "" then (AiOutcome.validationError "Please enter findings first.", [])
  else
    let req : AiRequest := ⟨"polish", f.findings, ""⟩
    (AiOutcome.requested req, [req])

/-- handleAiImpression validation and request construction (part_000 lines
311 to 317). -/
def handleAiImpressionPre (f : Form) : AiOutcome × List AiRequest :=
  if f.findings = "" then (AiOutcome.validationError "Please enter findings first.", [])
  else
    let req : AiRequest := ⟨"impression", f.findings, ""⟩
    (AiOutcome.requested req, [req])

/-- handleAiExplain validation and request construction (part_000 lines
319 to 328): alert and stop when findings and impression are both empty. -/
def handleAiExplainPre (f : Form) : AiOutcome × List AiRequest :=
  if f.findings = "" ∧ f.impression = "" then (AiOutcome.validationError "Report is empty.", [])
  else
    let req : AiRequest := ⟨"explain", f.findings, f.impression⟩
    (AiOutcome.requested req, [req])

/-- buildPrompt of the backend (functions/index.js lines 7 to 18): the
fixed prompt of each mode with the fields embedded verbatim; an
unsupported mode throws before any network call. -/
def buildPrompt (mode findings impression : String) : Except String String :=
  if mode = "polish" then Except.ok
    ("You are a pediatric radiologist. Rewrite the following ultrasound findings so they read like a formal ultrasound report using concise, standardized medical English. Do not add or remove findings—only refine wording and flow.\n\nFindings:\n" ++ findings)
  else if mode = "impression" then Except.ok
    ("You are a pediatric radiologist. Based ONLY on the following ultrasound findings, craft a concise Conclusion/Impression in formal ultrasound reporting language. Do not introduce new findings.\n\nFindings:\n" ++ findings)
  else if mode = "explain" then Except.ok
    ("당신은 소아 영상의학과 전문의입니다. 아래 초음파 소견과 Impression을 보호자가 이해하기 쉽게 한국어로 풀어쓰세요. 불안감을 줄이는 어조로 Summary와 자세한 설명을 구분해 주고, 전문 용어는 짧게 풀어서 설명합니다.\n\nFindings: " ++ findings ++ "\nImpression: " ++ impression)
  else Except.error "Unsupported mode"

/-- The validation phase of generateReportText (functions/index.js lines
20 to 30), everything that runs before the external OpenAI call: missing
mode, missing findings for the non-explain modes, then buildPrompt. An
error here means the request is rejected with no network call; ok carries
the prompt that would be sent. -/
def generatePreflight (mode findings impression : String) : Except String String :=
  if mode = "" then Except.error "mode is required"
  else if findings = "" ∧ mode ≠ "explain" then Except.error "findings are required"
  else buildPrompt mode findings impression

/-- App state touched by handleAiExplain: the report form, the selected
document id, and the explain modal state. -/
structure AppState where
  form : Form
  currentId : Option String
  aiExplanation : String
  explainModalOpen : Bool
  aiLoading : Option String
deriving DecidableEq, Repr

/-- The net effect of one handleAiExplain run (part_000 lines 319 to 328)
given the bridge result (none models both a failed call and an empty
text, which the || turns into the failure message): when findings and
impression are both empty, alert and change nothing; otherwise open the
modal and write only the explanation text and loading flag - the form is
never written. -/
def handleAiExplainRun (aiResult : Option String) (s : AppState) : AppState :=
  if s.form.findings = "" ∧ s.form.impression = "" then s
  else
    { s with
      explainModalOpen := true,
      aiExplanation := aiResult.getD "Failed to generate explanation.",
      aiLoading := none }

/-- A blank form, as produced by handleNew with a given today string. -/
def blankForm (todayStr : String) : Form :=
  ⟨"", "", "", todayStr, "", "", "", ""⟩

/-- A concrete populated form used by witnesses. -/
def demoForm : Form :=
  ⟨"Jane Doe", "12345678", "880101-1234567", "2026-10-12", "Abdomen US",
    "Abdominal pain", "Liver is normal.", "Normal study."⟩

/-- A concrete fresh session used by witnesses: populated form, no
persistent id. -/
def demoSession : SessionState := ⟨demoForm, none⟩

/-- A concrete save environment used by witnesses. -/
def demoEnv : SaveEnv := ⟨true, "2026-10-12T00:00:00.000Z", "doc-1", true⟩

/-- C2: the claim quantifies over inputs whose digit count after
stripping non-digit separators is below 7 and asserts empty age and
Unknown sex. The code strips only hyphens and guards on the remaining
length, not on the digit count: the all-letter input abcdefg has 0 digits
yet length 7, so the guard is passed, parseInt yields NaN everywhere, and
the NaN parity test (NaN % 2 !== 0 is true) classifies the sex as Male
instead of Unknown, with a NaN age instead of an empty one. -/
theorem C2_counterexample :
    (("abcdefg".toList.filter Char.isDigit).length < 7) ∧
    computeAgeSex "abcdefg" ⟨2026, 9, 12⟩ = ⟨AgeField.nan, "Male"⟩ ∧
    ¬ (computeAgeSex "abcdefg" ⟨2026, 9, 12⟩ = ⟨AgeField.empty, ""⟩) := by
  decide

/-- C2 (amended): for every nationalId input whose length after removing
hyphen characters is below 7, the resolver returns empty age and Unknown
(empty) sex, on every current date; the resolver is a total function, so
it never fails. -/
theorem C2_short_input_unknown (s : String) (t : Today)
    (h : (stripHyphens s).length < 7) :
    computeAgeSex s t = ⟨AgeField.empty, ""⟩ := by
  simp [computeAgeSex, h]

/-- C2 witness: the amended theorem applied to a concrete short input. -/
theorem C2_short_input_unknown_witness :
    (stripHyphens "880101").length < 7 ∧
    computeAgeSex "880101" ⟨2026, 9, 12⟩ = ⟨AgeField.empty, ""⟩ :=
  ⟨by decide, C2_short_input_unknown "880101" ⟨2026, 9, 12⟩ (by decide)⟩

/-- C5: on the input 880101-1234567 the resolver reads the 7th digit 1
(in {1,2,5,6}, so the century base is 1900), derives birth year 1988,
zero-based month 0, day 1, sex Male (1 is odd), and an age of
currentYear - 1988 with no decrement, for every real current date (month
index at least 0 and day of month at least 1). -/
theorem C5_rrn_880101 (t : Today) (hm : 0 ≤ t.month) (hd : 1 ≤ t.day) :
    rrnDerive (stripHyphens "880101-1234567") t =
      ⟨some 1, 1900, some 1988, some 0, some 1, some (t.year - 1988), "Male"⟩ ∧
    computeAgeSex "880101-1234567" t = ⟨AgeField.num (t.year - 1988), "Male"⟩ := by
  have hs : stripHyphens "880101-1234567" = "8801011234567" := by decide
  have h1 : parseIntJs (charAtJs "8801011234567" 6) = some 1 := by decide
  have h2 : parseIntJs (substringJs "8801011234567" 0 2) = some 88 := by decide
  have h3 : parseIntJs (substringJs "8801011234567" 2 4) = some 1 := by decide
  have h4 : parseIntJs (substringJs "8801011234567" 4 6) = some 1 := by decide
  have hmlt : ¬ (t.month < (0 : Int)) := by omega
  have hdlt : ¬ (t.day < (1 : Int)) := by omega
  have hder : rrnDerive (stripHyphens "880101-1234567") t =
      ⟨some 1, 1900, some 1988, some 0, some 1, some (t.year - 1988), "Male"⟩ := by
    rw [hs]
    simp [rrnDerive, h1, h2, h3, h4, jsEq, jsAdd, jsSub, jsLt, jsOddTest, hmlt, hdlt]
  refine ⟨hder, ?_⟩
  have hlen : ¬ ((stripHyphens "880101-1234567").length < 7) := by decide
  simp [computeAgeSex, hlen, hder, toAgeField]

/-- C5 witness: the theorem applied to the concrete date 2026-10-12
(zero-based month 9). -/
theorem C5_rrn_880101_witness :
    (0 : Int) ≤ 9 ∧ (1 : Int) ≤ 12 ∧
    computeAgeSex "880101-1234567" ⟨2026, 9, 12⟩ = ⟨AgeField.num 38, "Male"⟩ :=
  ⟨by decide, by decide, (C5_rrn_880101 ⟨2026, 9, 12⟩ (by decide) (by decide)).2⟩

/-- C6: on non-empty findings, addAbnormalSnippet appends a blank line and
the snippet, so the new findings have length old + 2 + snippet and end in
the snippet text; on empty findings it sets the findings to the snippet;
in both cases the old findings text is preserved as a prefix, so no
existing content is deleted. -/
theorem C6_append_snippet (f : Form) (text : String) :
    (f.findings ≠ "" →
      (addAbnormalSnippet text f).findings.length
        = f.findings.length + 2 + text.length ∧
      ∃ p, (addAbnormalSnippet text f).findings = p ++ text) ∧
    (f.findings = "" → (addAbnormalSnippet text f).findings = text) ∧
    (∃ rest, (addAbnormalSnippet text f).findings = f.findings ++ rest) := by
  refine ⟨fun h => ?_, fun h => ?_, ?_⟩
  · refine ⟨?_, ⟨f.findings ++ "\n\n", ?_⟩⟩
    · have hn : ("\n\n" : String).length = 2 := by decide
      simp [addAbnormalSnippet, h, String.length_append, hn]
    · simp [addAbnormalSnippet, h]
  · simp [addAbnormalSnippet, h]
  · by_cases h : f.findings = ""
    · exact ⟨text, by simp [addAbnormalSnippet, h]⟩
    · exact ⟨"\n\n" ++ text, by simp [addAbnormalSnippet, h, String.append_assoc]⟩

/-- C6 witness: the theorem applied to a form with non-empty findings and
a concrete snippet. -/
theorem C6_append_snippet_witness :
    demoForm.findings ≠ "" ∧
    (addAbnormalSnippet "Free fluid noted." demoForm).findings.length
      = demoForm.findings.length + 2 + ("Free fluid noted." : String).length :=
  ⟨by decide, ((C6_append_snippet demoForm "Free fluid noted.").1 (by decide)).1⟩

/-- C7: applying the same template twice with no intervening edits equals
applying it once, since handleTemplate unconditionally overwrites the
exam type, findings, and impression as a function of the exam type alone;
an unknown exam type overwrites findings and impression with empty
strings. -/
theorem C7_template_idempotent (ty : String) (f : Form) :
    handleTemplate ty (handleTemplate ty f) = handleTemplate ty f ∧
    (TEMPLATES ty = none →
      (handleTemplate ty f).findings = "" ∧ (handleTemplate ty f).impression = "") := by
  constructor
  · rfl
  · intro h
    simp [handleTemplate, h, jsOrDefault]

/-- C7 witness: the theorem applied to an unknown exam type. -/
theorem C7_template_idempotent_witness :
    TEMPLATES "Chest CT" = none ∧
    (handleTemplate "Chest CT" demoForm).findings = "" :=
  ⟨by decide, ((C7_template_idempotent "Chest CT" demoForm).2 (by decide)).1⟩

/-- C9: handleTemplate rewrites only the exam type, findings, and
impression, leaving name, patient id, national id, exam date, and
clinical indication unchanged; addAbnormalSnippet rewrites only the
findings, leaving every other form field unchanged. -/
theorem C9_frame (f : Form) (ty text : String) :
    ((handleTemplate ty f).name = f.name ∧
     (handleTemplate ty f).id = f.id ∧
     (handleTemplate ty f).rrn = f.rrn ∧
     (handleTemplate ty f).date = f.date ∧
     (handleTemplate ty f).indication = f.indication) ∧
    ((addAbnormalSnippet text f).name = f.name ∧
     (addAbnormalSnippet text f).id = f.id ∧
     (addAbnormalSnippet text f).rrn = f.rrn ∧
     (addAbnormalSnippet text f).date = f.date ∧
     (addAbnormalSnippet text f).type = f.type ∧
     (addAbnormalSnippet text f).indication = f.indication ∧
     (addAbnormalSnippet text f).impression = f.impression) := by
  simp [handleTemplate, addAbnormalSnippet]

/-- C10: whatever the bridge result of an explain invocation is (success,
failure, or empty), handleAiExplain leaves the report form and the
selected document id unchanged: only the explanation text shown in the
modal, the modal flag, and the loading flag are written. -/
theorem C10_explain_frame (aiResult : Option String) (s : AppState) :
    (handleAiExplainRun aiResult s).form = s.form ∧
    (handleAiExplainRun aiResult s).currentId = s.currentId := by
  unfold handleAiExplainRun
  split <;> simp

/-- C3: on a session whose name is empty, handleSave (run with user and
db present) alerts and stops: the outcome is the validation error, the
session state is returned unchanged, and no gateway call is issued. -/
theorem C3_save_empty_name (s : SessionState) (env : SaveEnv)
    (hname : s.form.name = "") (hready : env.ready = true) :
    handleSave env s = (s, [], SaveOutcome.validationError) := by
  simp [handleSave, hname, hready]

/-- C3 witness: the theorem applied to a blank session and the demo
environment. -/
theorem C3_save_empty_name_witness :
    (blankForm "2026-10-12").name = "" ∧ demoEnv.ready = true ∧
    handleSave demoEnv ⟨blankForm "2026-10-12", none⟩ =
      (⟨blankForm "2026-10-12", none⟩, [], SaveOutcome.validationError) :=
  ⟨rfl, rfl, C3_save_empty_name ⟨blankForm "2026-10-12", none⟩ demoEnv rfl rfl⟩

/-- Saving a session that already holds a document id keeps that id and
issues no create call, whatever the environment. -/
theorem handleSave_with_id (env : SaveEnv) (s : SessionState) (i : String)
    (h : s.currentId = some i) :
    (handleSave env s).1.currentId = some i ∧
    ∀ c ∈ (handleSave env s).2.1, c.1.isCreate = false := by
  unfold handleSave
  rw [h]
  split
  · simpa using h
  · split
    · simpa using h
    · simp [GatewayCall.isCreate, h]

/-- A sequence of saves keeps an already assigned document id. -/
theorem runSaves_with_id (envs : List SaveEnv) :
    ∀ s i, s.currentId = some i → (runSaves s envs).1.currentId = some i := by
  induction envs with
  | nil => intro s i h; simpa [runSaves] using h
  | cons env rest ih =>
    intro s i h
    simp only [runSaves]
    exact ih _ _ (handleSave_with_id env s i h).1

/-- One save on a session with no document id either succeeds in creating
one (and the session adopts the new id), or leaves the session unchanged
having issued no successful create. -/
theorem handleSave_no_id (env : SaveEnv) (s : SessionState)
    (h : s.currentId = none) :
    (handleSave env s).1.currentId = some env.newId ∨
    ((handleSave env s).1 = s ∧
      ∀ c ∈ (handleSave env s).2.1, ¬ (c.1.isCreate = true ∧ c.2 = true)) := by
  by_cases hr : env.ready = false
  · right; simp [handleSave, hr]
  · by_cases hn : s.form.name = ""
    · right; simp [handleSave, hr, hn]
    · by_cases hio : env.ioOk = true
      · left; simp [handleSave, hr, hn, h, hio]
      · right; simp [handleSave, hr, hn, h, hio, GatewayCall.isCreate]

/-- If the session still has no document id after a sequence of saves,
then no successful create was ever issued along that sequence. -/
theorem runSaves_no_id_never_created (envs : List SaveEnv) :
    ∀ s, s.currentId = none → (runSaves s envs).1.currentId = none →
      ∀ c ∈ (runSaves s envs).2, ¬ (c.1.isCreate = true ∧ c.2 = true) := by
  induction envs with
  | nil =>
    intro s h hfin c hc
    simp [runSaves] at hc
  | cons env rest ih =>
    intro s h hfin c hc
    simp only [runSaves, List.mem_append] at hc hfin
    rcases handleSave_no_id env s h with hsome | ⟨hstate, hcalls⟩
    · exact absurd (runSaves_with_id rest _ _ hsome) (by simp [hfin])
    · rcases hc with hc | hc
      · exact hcalls c hc
      · exact ih (handleSave env s).1 (by rw [hstate]; exact h) hfin c hc

/-- C4: a first successful save on a session with no document id issues
exactly one create carrying the form and timestamp, adopts the returned
id, and reports success; every save on a session that holds an id keeps
that id, issues no create (on success, exactly one merge update on that
id), so once assigned the id never changes and saves are updates only;
and over any sequence of saves, a session that still has no id has never
had a successful create - it has never been persisted. -/
theorem C4_persistent_id (s : SessionState) (env : SaveEnv) (i : String)
    (envs : List SaveEnv) :
    (env.ready = true → env.ioOk = true → s.currentId = none → s.form.name ≠ "" →
      handleSave env s =
        ({ s with currentId := some env.newId },
         [(GatewayCall.create ⟨s.form, env.now⟩, true)], SaveOutcome.saved)) ∧
    (s.currentId = some i →
      (handleSave env s).1.currentId = some i ∧
      (∀ c ∈ (handleSave env s).2.1, c.1.isCreate = false) ∧
      (env.ready = true → env.ioOk = true → s.form.name ≠ "" →
        handleSave env s =
          (s, [(GatewayCall.update i ⟨s.form, env.now⟩, true)], SaveOutcome.saved))) ∧
    (s.currentId = none → (runSaves s envs).1.currentId = none →
      ∀ c ∈ (runSaves s envs).2, ¬ (c.1.isCreate = true ∧ c.2 = true)) := by
  refine ⟨fun hr hio hid hnm => ?_, fun hid => ?_, fun hid hfin => ?_⟩
  · simp [handleSave, hr, hio, hid, hnm]
  · refine ⟨(handleSave_with_id env s i hid).1, (handleSave_with_id env s i hid).2,
      fun hr hio hnm => ?_⟩
    simp [handleSave, hr, hio, hid, hnm]
  · exact runSaves_no_id_never_created envs s hid hfin

/-- C4 witness: a fresh demo session saved once creates and adopts doc-1;
saving the resulting session again updates doc-1 and never creates. -/
theorem C4_persistent_id_witness :
    handleSave demoEnv demoSession =
      ({ demoSession with currentId := some "doc-1" },
       [(GatewayCall.create ⟨demoForm, "2026-10-12T00:00:00.000Z"⟩, true)],
       SaveOutcome.saved) ∧
    handleSave demoEnv { demoSession with currentId := some "doc-1" } =
      ({ demoSession with currentId := some "doc-1" },
       [(GatewayCall.update "doc-1" ⟨demoForm, "2026-10-12T00:00:00.000Z"⟩, true)],
       SaveOutcome.saved) :=
  ⟨(C4_persistent_id demoSession demoEnv "doc-1" []).1 rfl rfl rfl (by decide),
   ((C4_persistent_id { demoSession with currentId := some "doc-1" } demoEnv "doc-1" []).2.1
      rfl).2.2 rfl rfl (by decide)⟩

/-- C8: each AI action validates its required fields synchronously and,
when they are missing, alerts and issues no request: polish and
impression stop on empty findings, explain stops when findings and
impression are both empty; and the backend itself rejects a polish or
impression request with empty findings before any network call. -/
theorem C8_missing_fields (f : Form) :
    (f.findings = "" →
      handleAiPolishPre f = (AiOutcome.validationError "Please enter findings first.", []) ∧
      handleAiImpressionPre f = (AiOutcome.validationError "Please enter findings first.", [])) ∧
    (f.findings = "" → f.impression = "" →
      handleAiExplainPre f = (AiOutcome.validationError "Report is empty.", [])) ∧
    (∀ impression, generatePreflight "polish" "" impression
        = Except.error "findings are required") ∧
    (∀ impression, generatePreflight "impression" "" impression
        = Except.error "findings are required") := by
  refine ⟨fun h => ⟨?_, ?_⟩, fun h1 h2 => ?_, fun imp => ?_, fun imp => ?_⟩ <;>
    simp [handleAiPolishPre, handleAiImpressionPre, handleAiExplainPre,
      generatePreflight, *]

/-- C8 witness: the theorem applied to a blank form. -/
theorem C8_missing_fields_witness :
    handleAiPolishPre (blankForm "2026-10-12")
      = (AiOutcome.validationError "Please enter findings first.", []) ∧
    handleAiExplainPre (blankForm "2026-10-12")
      = (AiOutcome.validationError "Report is empty.", []) ∧
    generatePreflight "polish" "" "" = Except.error "findings are required" :=
  ⟨((C8_missing_fields (blankForm "2026-10-12")).1 rfl).1,
   (C8_missing_fields (blankForm "2026-10-12")).2.1 rfl rfl,
   (C8_missing_fields (blankForm "2026-10-12")).2.2.1 ""⟩

/-- The retry loop makes at most fuel fetch calls. -/
theorem callGeminiAux_calls_le (r : Nat → ApiResponse) :
    ∀ fuel i, (callGeminiAux r i fuel).calls ≤ fuel := by
  intro fuel
  induction fuel with
  | zero => intro i; simp [callGeminiAux]
  | succ n ih =>
    intro i
    rcases h : r i with t | _ | m <;>
      simp [callGeminiAux, h] <;>
      exact ih (i + 1)

/-- The delays awaited by the retry loop from attempt i are strictly
increasing and bounded below by the attempt-i delay 1000 * 2 ^ i. -/
theorem callGeminiAux_delays (r : Nat → ApiResponse) :
    ∀ fuel i, List.Pairwise (fun a b => a < b) (callGeminiAux r i fuel).delays ∧
      ∀ d ∈ (callGeminiAux r i fuel).delays, 1000 * 2 ^ i ≤ d := by
  intro fuel
  induction fuel with
  | zero => intro i; simp [callGeminiAux]
  | succ n ih =>
    intro i
    have hpow : (1000 : ℕ) * 2 ^ i < 1000 * 2 ^ (i + 1) := by
      have h2 : (0 : ℕ) < 2 ^ i := Nat.pos_pow_of_pos i (by norm_num)
      have hs : (2 : ℕ) ^ (i + 1) = 2 ^ i * 2 := pow_succ 2 i
      omega
    rcases h : r i with t | _ | m
    · simp [callGeminiAux, h]
    · refine ⟨?_, ?_⟩
      · simp only [callGeminiAux, h]
        refine List.pairwise_cons.mpr ⟨fun d hd => ?_, (ih (i + 1)).1⟩
        exact lt_of_lt_of_le hpow ((ih (i + 1)).2 d hd)
      · simp only [callGeminiAux, h]
        intro d hd
        rcases List.mem_cons.mp hd with hd | hd
        · omega
        · exact le_of_lt (lt_of_lt_of_le hpow ((ih (i + 1)).2 d hd))
    · refine ⟨?_, ?_⟩
      · simp only [callGeminiAux, h]
        exact (ih (i + 1)).1
      · simp only [callGeminiAux, h]
        intro d hd
        exact le_of_lt (lt_of_lt_of_le hpow ((ih (i + 1)).2 d hd))

/-- C1: the claim asserts that a failure which is not transient/rate-limit
makes the bridge fail immediately without retry. In callGemini such a
failure is thrown but caught by the catch block inside the loop, so the
loop proceeds to the next attempt: on the response sequence whose first
call fails non-transiently and whose second call succeeds, the code makes
two fetch calls and returns the second call's text, instead of failing
after one call as claimed. -/
theorem C1_counterexample :
    (callGemini failThenOk).calls = 2 ∧
    (callGemini failThenOk).result = some "Polished findings." ∧
    ¬ ((callGemini failThenOk).calls = 1 ∧ (callGemini failThenOk).result = none) := by
  decide

/-- C1 (amended): the bridge makes at most MAX_RETRIES = 3 fetch calls and
every sequence of inter-attempt delays it awaits is strictly increasing,
doubling from the 1000 ms base (all-transient run: 1000, 2000, 4000 ms);
a transient-failure-then-success sequence returns the trimmed success
text within MAX_RETRIES calls after a single 1000 ms delay; a
non-transient failure does not abort the loop: it is caught and retried
with no delay, and only when every attempt has failed does the bridge
give up, returning null and surfacing the last failure reason only if
the final attempt itself threw. -/
theorem C1_retry_backoff :
    (∀ responses, (callGemini responses).calls ≤ MAX_RETRIES) ∧
    (∀ responses, List.Pairwise (fun a b => a < b) (callGemini responses).delays) ∧
    callGemini (fun _ => ApiResponse.rateLimited) = ⟨none, 3, [1000, 2000, 4000], none⟩ ∧
    callGemini transientThenOk = ⟨some "Polished findings.", 2, [1000], none⟩ ∧
    callGemini allFailed = ⟨none, 3, [], some "e2"⟩ := by
  refine ⟨fun r => callGeminiAux_calls_le r MAX_RETRIES 0,
    fun r => (callGeminiAux_delays r MAX_RETRIES 0).1, ?_, ?_, ?_⟩ <;> decide

end SonographX
